import Mathlib

/-!
Shallow embedding of the BNO080 SHTP driver core (`src/wrapper.rs`).

The driver talks to a BNO080 sensor hub over an abstract transport
(`SensorInterface` in the crate's `interface` module, which the spec treats
as an external collaborator).  We model:

* the driver state (`BNO080`: per-channel sequence numbers and the two
  persistent flags `device_reset` / `prod_id_verified`);
* outgoing-frame construction (`send_packet`), with the transport outcome
  supplied as a parameter `tr : Option E` (`none` = transport send succeeds,
  `some e` = the transport reports error `e`);
* incoming-frame handling (`handle_received_packet` and its helpers), with
  the receive buffer contents and received length supplied as parameters;
* the draining helpers (`eat_one_message`, `eat_all_messages`), product-id
  verification, `soft_reset` and `init`.

Rust slice indexing panics when out of bounds; every function that can panic
returns an `Option`, with `none` modelling the panic.  Machine integers are
modelled as `Nat` with explicit `% 256` / `% 2^32` where the source relies on
u8 / u32 arithmetic.  The `+= 1` on a `u8` sequence counter is modelled with
release-profile (wrapping) semantics, `(s + 1) % 256`.
-/

namespace BNO080Spec

def PACKET_SEND_BUF_LEN : Nat := 256

def PACKET_RECV_BUF_LEN : Nat := 1024

def NUM_CHANNELS : Nat := 6

/-- Modelled from the spec: `PACKET_HEADER_LENGTH` is imported from the
crate's `interface` module, which is not among the sources; the spec's
wire format (§6) fixes the header at 4 bytes
(`[length_lo, length_hi, channel, sequence]`, body from byte 4). -/
def PACKET_HEADER_LENGTH : Nat := 4

/-- The six SHTP channel numbers used by the driver (`wrapper.rs` constants). -/
def SHTP_CHAN_COMMAND : Nat := 0

def CHANNEL_EXECUTABLE : Nat := 1

def CHANNEL_HUB_CONTROL : Nat := 2

def CHANNEL_SENSOR_REPORTS : Nat := 3

def SENSORHUB_PROD_ID_REQ : Nat := 0xF9

def SENSORHUB_PROD_ID_RESP : Nat := 0xF8

def SHTP_REPORT_SET_FEATURE_COMMAND : Nat := 0xFD

def SENSOR_REPORTID_ROTATION_VECTOR : Nat := 0x05

def SENSORHUB_COMMAND_RESP : Nat := 0xF1

def EXECUTABLE_DEVICE_CMD_RESET : Nat := 1

def EXECUTABLE_DEVICE_RESP_RESET_COMPLETE : Nat := 1

/-- Model of `WrapperError<E>` from `wrapper.rs`. -/
inductive WrapperError (E : Type) where
  | CommError : E → WrapperError E
  | InvalidChipId : Nat → WrapperError E
  | InvalidFWVersion : Nat → WrapperError E
deriving DecidableEq

/-- Driver state: the fields of `struct BNO080` that the protocol logic reads
and writes (the two fixed-size buffers are modelled as explicit arguments /
results of the operations that touch them). -/
structure BNO080 where
  sequence_numbers : List Nat
  device_reset : Bool
  prod_id_verified : Bool
deriving DecidableEq

/-- Constructor `BNO080::new_with_interface`: all counters zero, both flags false. -/
def BNO080.new_with_interface : BNO080 :=
  { sequence_numbers := List.replicate NUM_CHANNELS 0
    device_reset := false
    prod_id_verified := false }

/-- Model of `receive_packet`: delegates to the transport read and wraps a transport
error in `CommError`.  The transport outcome (received length or error) is
the parameter. -/
def receive_packet {E : Type} (r : Except E Nat) : Except (WrapperError E) Nat :=
  match r with
  | Except.ok n => Except.ok n
  | Except.error e => Except.error (WrapperError.CommError e)

/-- Model of `eat_one_message`, i.e. `self.receive_packet().unwrap_or(0)` — a receive error
is swallowed and reported as length 0. -/
def eat_one_message {E : Type} (r : Except E Nat) : Nat :=
  match receive_packet r with
  | Except.ok n => n
  | Except.error _ => 0

/-- Model of `eat_all_messages`: loop receiving until a receive yields length 0,
calling `delay_ms(1)` after each non-zero receive.  The argument lists the
successive transport receive outcomes; the result is the number of delay
calls performed (= number of non-empty frames drained). -/
def eat_all_messages {E : Type} : List (Except E Nat) → Nat
  | [] => 0
  | r :: rest =>
    if eat_one_message r = 0 then 0 else 1 + eat_all_messages rest

/-- Model of `handle_input_report`: skips the 4-byte header plus 5 timestamp bytes and
reads the feature report id at offset 9 of the message (an out-of-bounds
index, i.e. a panic, is `none`); both match arms are no-ops. -/
def handle_input_report (st : BNO080) (msg : List Nat) : Option BNO080 :=
  match msg[PACKET_HEADER_LENGTH + 5]? with
  | some _feature_report_id => some st
  | none => none

/-- The `while cursor < payload_len` loop of `handle_advertise_response`:
read one tag byte and one length byte, then skip `length` value bytes.
An out-of-bounds index (Rust panic) is `none`. -/
def advertise_walk (payload : List Nat) (payload_len cursor : Nat) : Option Unit :=
  if _h : cursor < payload_len then
    match payload[cursor]? with
    | none => none
    | some _tag =>
      match payload[cursor + 1]? with
      | none => none
      | some len => advertise_walk payload payload_len (cursor + 2 + len)
  else some ()
termination_by payload_len - cursor
decreasing_by omega

/-- Model of `handle_advertise_response`: walk the body (`buf[4..received_len]`) as a
tag-length-value stream starting at cursor 1; no state is changed. -/
def handle_advertise_response (st : BNO080) (buf : List Nat)
    (received_len : Nat) : Option BNO080 :=
  let payload_len := received_len - PACKET_HEADER_LENGTH
  let payload := (buf.take received_len).drop PACKET_HEADER_LENGTH
  match advertise_walk payload payload_len 1 with
  | some _ => some st
  | none => none

/-- Model of `handle_received_packet`: slice the receive buffer to `received_len`,
read the channel byte at offset 2 and the report id at offset 4, and route.
All Rust panics (slice of more than the buffer holds, index out of bounds)
are `none`.  The channel match arms follow the source: sensor reports,
command (advertisement), executable (reset complete), hub control
(command response at offset 6 — both sub-branches are no-ops — and product
id response), and a catch-all that ignores unknown channels. -/
def handle_received_packet (st : BNO080) (buf : List Nat)
    (received_len : Nat) : Option BNO080 :=
  if received_len ≤ buf.length then
    let msg := buf.take received_len
    match msg[2]?, msg[4]? with
    | some chan_num, some report_id =>
      if chan_num = CHANNEL_SENSOR_REPORTS then
        handle_input_report st msg
      else if chan_num = SHTP_CHAN_COMMAND then
        (if report_id = 0 then handle_advertise_response st buf received_len
         else some st)
      else if chan_num = CHANNEL_EXECUTABLE then
        (if report_id = EXECUTABLE_DEVICE_RESP_RESET_COMPLETE then
           some { st with device_reset := true }
         else some st)
      else if chan_num = CHANNEL_HUB_CONTROL then
        (if report_id = SENSORHUB_COMMAND_RESP then
           (match msg[6]? with
            | some _cmd_resp => some st
            | none => none)
         else if report_id = SENSORHUB_PROD_ID_RESP then
           some { st with prod_id_verified := true }
         else some st)
      else some st
    | _, _ => none
  else none

/-- Model of `handle_one_message`: receive one packet; on a receive error or an empty
packet, the message count is 0; otherwise dispatch and count 1.  `buf` is
the receive buffer contents after the transport read. -/
def handle_one_message {E : Type} (recvRes : Except E Nat) (buf : List Nat)
    (st : BNO080) : Option (Nat × BNO080) :=
  match receive_packet recvRes with
  | Except.error _ => some (0, st)
  | Except.ok received_len =>
    if received_len > 0 then
      match handle_received_packet st buf received_len with
      | some st' => some (1, st')
      | none => none
    else some (0, st)

/-- Model of `send_packet`: increment the channel's sequence counter (u8, wrapping),
build the header `[length_lo, length_hi, channel, sequence]`, copy header and
body into the 256-byte send buffer, and hand the frame to the transport.
Result `none` models the Rust panics (sequence-array index out of bounds for
a channel ≥ 6, or `copy_from_slice` out of range for an oversized body);
otherwise the post state, the frame bytes written to the buffer, and the
Rust return (`Ok(packet_length)` or the transport's `CommError`). -/
def send_packet {E : Type} (tr : Option E) (st : BNO080) (channel : Nat)
    (body : List Nat) :
    Option (BNO080 × List Nat × Except (WrapperError E) Nat) :=
  if channel < st.sequence_numbers.length then
    let newSeq := (st.sequence_numbers.getD channel 0 + 1) % 256
    let st' := { st with sequence_numbers := st.sequence_numbers.set channel newSeq }
    let packet_length := body.length + PACKET_HEADER_LENGTH
    if packet_length ≤ PACKET_SEND_BUF_LEN then
      let header := [packet_length % 256, packet_length / 256 % 256, channel, newSeq]
      match tr with
      | some e => some (st', header ++ body, Except.error (WrapperError.CommError e))
      | none => some (st', header ++ body, Except.ok packet_length)
    else none
  else none

/-- Iterated sends: `n` consecutive `send_packet` calls on one channel with the same body and
a succeeding transport; collects the sequence byte (offset 3) of each frame
sent. -/
def send_stream (st : BNO080) (channel : Nat) (body : List Nat) :
    Nat → Option (BNO080 × List Nat)
  | 0 => some (st, [])
  | n + 1 =>
    match send_packet (E := Unit) none st channel body with
    | some (st', frame, Except.ok _) =>
      (match send_stream st' channel body n with
       | some (stF, seqs) => some (stF, frame.getD 3 0 :: seqs)
       | none => none)
    | _ => none

/-- Model of `soft_reset`: send `[1]` (reset execute) on the executable channel;
received packets are ignored. -/
def soft_reset {E : Type} (tr : Option E) (st : BNO080) :
    Option (BNO080 × List Nat × Except (WrapperError E) Unit) :=
  match send_packet tr st CHANNEL_EXECUTABLE [EXECUTABLE_DEVICE_CMD_RESET] with
  | some (st', frame, Except.ok _) => some (st', frame, Except.ok ())
  | some (st', frame, Except.error e) => some (st', frame, Except.error e)
  | none => none

/-- Model of `verify_product_id`: send `[0xF9, 0]` on the hub-control channel, then
receive one frame (`trS` = transport send outcome, `recvRes` = transport
receive outcome, `recvBuf` = receive buffer contents).  If the received
length exceeds the header length and the byte just after the header is
`0xF8`, set `prod_id_verified` and succeed; otherwise `InvalidChipId(0)`.
The returned triple carries the post state, the frame that was sent, and
the Rust result. -/
def verify_product_id {E : Type} (trS : Option E) (recvRes : Except E Nat)
    (recvBuf : List Nat) (st : BNO080) :
    Option (BNO080 × List Nat × Except (WrapperError E) Unit) :=
  match send_packet trS st CHANNEL_HUB_CONTROL [SENSORHUB_PROD_ID_REQ, 0] with
  | none => none
  | some (st1, frame, Except.error e) => some (st1, frame, Except.error e)
  | some (st1, frame, Except.ok _) =>
    match receive_packet recvRes with
    | Except.error e => some (st1, frame, Except.error e)
    | Except.ok recv_len =>
      if PACKET_HEADER_LENGTH < recv_len then
        if recvBuf.getD (PACKET_HEADER_LENGTH + 0) 0 = SENSORHUB_PROD_ID_RESP then
          some ({ st1 with prod_id_verified := true }, frame, Except.ok ())
        else some (st1, frame, Except.error (WrapperError.InvalidChipId 0))
      else some (st1, frame, Except.error (WrapperError.InvalidChipId 0))

/-- Model of `init`: transport setup, `soft_reset`, delays, one discarded receive, a
drain of remaining frames (none of which touch the `BNO080` state), then
`verify_product_id`.  `trSetup` is the setup outcome, `trR` the transport
outcome of the reset send, `trV`/`recvV`/`recvBuf` the transport outcomes of
the verification exchange. -/
def init {E : Type} (trSetup trR trV : Option E) (recvV : Except E Nat)
    (recvBuf : List Nat) (st : BNO080) :
    Option (BNO080 × Except (WrapperError E) Unit) :=
  match trSetup with
  | some e => some (st, Except.error (WrapperError.CommError e))
  | none =>
    match soft_reset trR st with
    | none => none
    | some (st1, _frame, Except.error e) => some (st1, Except.error e)
    | some (st1, _frame, Except.ok _) =>
      match verify_product_id trV recvV recvBuf st1 with
      | none => none
      | some (st2, _f, r) => some (st2, r)

/-- The 17-byte "set feature" command body built by `enable_report`:
`0xFD`, report id, feature flags, two change-sensitivity bytes, the report
interval in microseconds little-endian (u32 arithmetic), four batch-interval
bytes and four sensor-specific-config bytes, all zero. -/
def enable_report_body (report_id millis_between_reports : Nat) : List Nat :=
  let micros := millis_between_reports * 1000 % 4294967296
  [SHTP_REPORT_SET_FEATURE_COMMAND,
   report_id,
   0, 0, 0,
   micros % 256,
   micros / 256 % 256,
   micros / 65536 % 256,
   micros / 16777216 % 256,
   0, 0, 0, 0,
   0, 0, 0, 0]

/-- Model of `enable_report`: build the set-feature body and send it on the
hub-control channel. -/
def enable_report {E : Type} (tr : Option E) (st : BNO080)
    (report_id millis_between_reports : Nat) :
    Option (BNO080 × List Nat × Except (WrapperError E) Nat) :=
  send_packet tr st CHANNEL_HUB_CONTROL
    (enable_report_body report_id millis_between_reports)

/-- Model of `enable_rotation_vector`: `enable_report` for report id `0x05`. -/
def enable_rotation_vector {E : Type} (tr : Option E) (st : BNO080)
    (millis_between_reports : Nat) :
    Option (BNO080 × List Nat × Except (WrapperError E) Nat) :=
  enable_report tr st SENSOR_REPORTID_ROTATION_VECTOR millis_between_reports

/-! ### Helper lemmas -/

theorem getD_set_self {l : List Nat} {i v : Nat} (h : i < l.length) :
    (l.set i v).getD i 0 = v := by
  rw [List.getD_eq_getElem?_getD, List.getElem?_set_eq_of_lt v h]
  rfl

theorem getD_set_of_ne {l : List Nat} {i j v : Nat} (h : i ≠ j) :
    (l.set i v).getD j 0 = l.getD j 0 := by
  rw [List.getD_eq_getElem?_getD, List.getElem?_set_ne h,
    List.getD_eq_getElem?_getD]

/-- A single successful `send_packet` on an in-range channel with a body that
fits: the frame, the return value, and the state update, for either
transport outcome. -/
theorem send_packet_eq {E : Type} (tr : Option E) (st : BNO080) (c : Nat)
    (body : List Nat) (h6 : st.sequence_numbers.length = 6) (hc : c < 6)
    (hcap : body.length + 4 ≤ 256) :
    send_packet tr st c body = some
      ({ st with sequence_numbers :=
          st.sequence_numbers.set c ((st.sequence_numbers.getD c 0 + 1) % 256) },
       ([(body.length + 4) % 256, (body.length + 4) / 256 % 256, c,
         (st.sequence_numbers.getD c 0 + 1) % 256] ++ body),
       (match tr with
        | none => Except.ok (body.length + 4)
        | some e => Except.error (WrapperError.CommError e))) := by
  have h1 : c < st.sequence_numbers.length := by rw [h6]; exact hc
  have h2 : body.length + PACKET_HEADER_LENGTH ≤ PACKET_SEND_BUF_LEN := by
    simpa [PACKET_HEADER_LENGTH, PACKET_SEND_BUF_LEN] using hcap
  unfold send_packet
  rw [if_pos h1, if_pos h2]
  cases tr <;> simp [PACKET_HEADER_LENGTH]

/-- An oversized body makes `send_packet` panic (`none`), for any transport
outcome. -/
theorem send_packet_oversize {E : Type} (tr : Option E) (st : BNO080)
    (c : Nat) (body : List Nat) (hbig : 256 < body.length + 4) :
    send_packet tr st c body = none := by
  have h2 : ¬ (body.length + PACKET_HEADER_LENGTH ≤ PACKET_SEND_BUF_LEN) := by
    simp only [PACKET_HEADER_LENGTH, PACKET_SEND_BUF_LEN]
    omega
  unfold send_packet
  split
  · rw [if_neg h2]
  · rfl

/-! ### C1 -/

/-- A received frame on the command channel (channel byte 0), report id 0
(advertisement response), total length 6: the body is `[0x00, 0xAA]`, so the
TLV walk reads the tag `0xAA` at body offset 1 and then fetches the length
byte at body offset 2 — one past the end of the 2-byte body. -/
def advCorruptFrame : List Nat := [6, 0, 0, 0, 0, 0xAA]

/-- C1: refuted by evaluation — for the well-formed 6-byte frame
`advCorruptFrame` on the command channel with report id 0, the
tag-length-value walk of `handle_advertise_response` attempts to read the
length byte at offset 2 of the 2-byte body, one byte past the body end.
`none` models the Rust index-out-of-bounds panic: the walk does read outside
the body, and no corrupt-frame condition exists in the code. -/
theorem advertise_walk_reads_past_body :
    handle_received_packet BNO080.new_with_interface advCorruptFrame 6 = none := by
  rw [handle_received_packet]
  rw [handle_advertise_response, advertise_walk]
  simp [advCorruptFrame, CHANNEL_SENSOR_REPORTS, SHTP_CHAN_COMMAND,
    PACKET_HEADER_LENGTH]

/-! ### C2 -/

/-- C2 counterexample: a 253-byte body (253 + 4 = 257 > 256) on the
hub-control channel.  `send_packet` evaluates to `none`, which models the
`copy_from_slice` panic: the claimed distinct error is never signaled —
the result is not `some (_, _, Except.error _)` of the driver's error type,
and not a truncated frame either. -/
theorem send_packet_oversize_no_distinct_error :
    send_packet (E := Unit) none BNO080.new_with_interface 2
      (List.replicate 253 0) = none := by
  apply send_packet_oversize
  simp only [List.length_replicate]
  norm_num

/-- C2 (amended): an oversized body (`body.len() + 4 > 256`) makes
`send_packet` panic via the out-of-range slice index — modelled as `none` —
rather than silently truncating the frame or returning a `WrapperError`;
for a body within capacity on a valid channel, the operation never panics
and the only error path is transport failure (`CommError`), otherwise it
returns `Ok(body.len() + 4)`. -/
theorem send_packet_capacity_behaviour {E : Type} (st : BNO080) (c : Nat)
    (body : List Nat) (h6 : st.sequence_numbers.length = 6) (hc : c < 6) :
    (256 < body.length + 4 →
      ∀ tr : Option E, send_packet tr st c body = none) ∧
    (body.length + 4 ≤ 256 →
      (∃ st' frame, send_packet (E := E) none st c body =
        some (st', frame, Except.ok (body.length + 4))) ∧
      (∀ e : E, ∃ st' frame, send_packet (some e) st c body =
        some (st', frame, Except.error (WrapperError.CommError e)))) := by
  constructor
  · intro hbig tr
    exact send_packet_oversize tr st c body hbig
  · intro hcap
    constructor
    · exact ⟨_, _, send_packet_eq none st c body h6 hc hcap⟩
    · intro e
      exact ⟨_, _, send_packet_eq (some e) st c body h6 hc hcap⟩

/-- C2 witness: the amended theorem at channel 2 with the 2-byte product-id
request body and the fresh driver state. -/
theorem send_packet_capacity_behaviour_witness :
    (List.replicate 253 (0 : Nat)).length + 4 > 256 ∧
    ([0xF9, 0] : List Nat).length + 4 ≤ 256 ∧
    (∃ st' frame, send_packet (E := Unit) none BNO080.new_with_interface 2
      [0xF9, 0] = some (st', frame, Except.ok 6)) := by
  refine ⟨by simp only [List.length_replicate]; norm_num, by norm_num, ?_⟩
  exact ((send_packet_capacity_behaviour BNO080.new_with_interface 2
    [0xF9, 0] (by simp [BNO080.new_with_interface, NUM_CHANNELS])
    (by norm_num)).2 (by norm_num)).1

/-! ### Dispatch lemmas -/

/-- Routing of `handle_received_packet` once the header reads at offsets 2
and 4 are known to be in bounds. -/
theorem handle_received_packet_route (st : BNO080) (buf : List Nat)
    (len : Nat) (hb : len ≤ buf.length) (h5 : 5 ≤ len) (c r : Nat)
    (hc : buf[2]? = some c) (hr : buf[4]? = some r) :
    handle_received_packet st buf len =
      (if c = 3 then handle_input_report st (buf.take len)
       else if c = 0 then
         (if r = 0 then handle_advertise_response st buf len else some st)
       else if c = 1 then
         (if r = 1 then some { st with device_reset := true } else some st)
       else if c = 2 then
         (if r = 0xF1 then
            (match (buf.take len)[6]? with
             | some _ => some st
             | none => none)
          else if r = 0xF8 then some { st with prod_id_verified := true }
          else some st)
       else some st) := by
  have h2 : (buf.take len)[2]? = some c := by
    rw [List.getElem?_take_of_lt (by omega)]; exact hc
  have h4 : (buf.take len)[4]? = some r := by
    rw [List.getElem?_take_of_lt (by omega)]; exact hr
  rw [handle_received_packet, if_pos hb]
  simp only [h2, h4, CHANNEL_SENSOR_REPORTS, SHTP_CHAN_COMMAND,
    CHANNEL_EXECUTABLE, CHANNEL_HUB_CONTROL,
    EXECUTABLE_DEVICE_RESP_RESET_COMPLETE, SENSORHUB_COMMAND_RESP,
    SENSORHUB_PROD_ID_RESP]

/-- A successful dispatch needs at least the 5 bytes covering the header
reads at offsets 2 and 4. -/
theorem handle_received_packet_some_len {st : BNO080} {buf : List Nat}
    {len : Nat} {st' : BNO080}
    (h : handle_received_packet st buf len = some st') :
    len ≤ buf.length ∧ 5 ≤ len := by
  rw [handle_received_packet] at h
  by_cases hb : len ≤ buf.length
  · refine ⟨hb, ?_⟩
    rw [if_pos hb] at h
    rcases h2 : (buf.take len)[2]? with _ | c
    · simp only [h2] at h
      exact absurd h (by simp)
    · rcases h4 : (buf.take len)[4]? with _ | r
      · simp only [h2, h4] at h
        exact absurd h (by simp)
      · have h4lt : 4 < (buf.take len).length := by
          by_contra hh
          rw [List.getElem?_eq_none_iff.mpr (by omega)] at h4
          exact Option.noConfusion h4
        rw [List.length_take] at h4lt
        omega
  · rw [if_neg hb] at h
    exact absurd h (by simp)

/-- Dispatch either leaves the state unchanged or sets one of
the two flags to true. -/
theorem handle_received_packet_shape {st : BNO080} {buf : List Nat}
    {len : Nat} {st' : BNO080}
    (h : handle_received_packet st buf len = some st') :
    st' = st ∨ st' = { st with device_reset := true } ∨
      st' = { st with prod_id_verified := true } := by
  rw [handle_received_packet] at h
  by_cases hb : len ≤ buf.length
  · rw [if_pos hb] at h
    rcases h2 : (buf.take len)[2]? with _ | c
    · simp only [h2] at h
      exact absurd h (by simp)
    rcases h4 : (buf.take len)[4]? with _ | r
    · simp only [h2, h4] at h
      exact absurd h (by simp)
    simp only [h2, h4] at h
    split_ifs at h
    · rw [handle_input_report] at h
      rcases h9 : (buf.take len)[PACKET_HEADER_LENGTH + 5]? with _ | fid <;>
        rw [h9] at h
      · exact absurd h (by simp)
      · exact Or.inl (Option.some.inj h).symm
    · rw [handle_advertise_response] at h
      rcases hw : advertise_walk ((buf.take len).drop PACKET_HEADER_LENGTH)
          (len - PACKET_HEADER_LENGTH) 1 with _ | u <;> rw [hw] at h
      · exact absurd h (by simp)
      · exact Or.inl (Option.some.inj h).symm
    · exact Or.inl (Option.some.inj h).symm
    · exact Or.inr (Or.inl (Option.some.inj h).symm)
    · exact Or.inl (Option.some.inj h).symm
    · rcases h6 : (buf.take len)[6]? with _ | cr <;> rw [h6] at h
      · exact absurd h (by simp)
      · exact Or.inl (Option.some.inj h).symm
    · exact Or.inr (Or.inr (Option.some.inj h).symm)
    · exact Or.inl (Option.some.inj h).symm
    · exact Or.inl (Option.some.inj h).symm
  · rw [if_neg hb] at h
    exact absurd h (by simp)

/-- A reset-complete frame (channel byte 1, report id 1) sets
`device_reset`. -/
theorem handle_reset_complete_eq (st : BNO080) (buf : List Nat) (len : Nat)
    (h5 : 5 ≤ len) (hb : len ≤ buf.length)
    (hc : buf[2]? = some 1) (hr : buf[4]? = some 1) :
    handle_received_packet st buf len = some { st with device_reset := true } := by
  rw [handle_received_packet_route st buf len hb h5 1 1 hc hr]
  norm_num

/-! ### C4 -/

/-- C4: dispatch routes by channel then report id.  On the executable
channel (byte 1), report id 1 sets `device_reset` and any other report id
leaves the state unchanged; on the hub-control channel (byte 2), report id
`0xF8` sets `prod_id_verified`, any other report id (including `0xF1`, whose
command-response byte at offset 6 exists when the frame has at least 7
bytes) leaves the state unchanged; unknown channel numbers are ignored
entirely — no error, no state change. -/
theorem dispatch_routes_by_channel_and_report (st : BNO080) (buf : List Nat)
    (len : Nat) (h5 : 5 ≤ len) (hb : len ≤ buf.length) :
    (buf[2]? = some 1 → buf[4]? = some 1 →
       handle_received_packet st buf len = some { st with device_reset := true }) ∧
    (∀ r, buf[2]? = some 1 → buf[4]? = some r → r ≠ 1 →
       handle_received_packet st buf len = some st) ∧
    (buf[2]? = some 2 → buf[4]? = some 0xF8 →
       handle_received_packet st buf len = some { st with prod_id_verified := true }) ∧
    (∀ r, buf[2]? = some 2 → buf[4]? = some r → r ≠ 0xF8 → r ≠ 0xF1 →
       handle_received_packet st buf len = some st) ∧
    (buf[2]? = some 2 → buf[4]? = some 0xF1 → 7 ≤ len →
       handle_received_packet st buf len = some st) ∧
    (∀ c r, buf[2]? = some c → buf[4]? = some r →
       c ≠ 0 → c ≠ 1 → c ≠ 2 → c ≠ 3 →
       handle_received_packet st buf len = some st) := by
  refine ⟨?_, ?_, ?_, ?_, ?_, ?_⟩
  · intro hc hr
    exact handle_reset_complete_eq st buf len h5 hb hc hr
  · intro r hc hr hne
    rw [handle_received_packet_route st buf len hb h5 1 r hc hr]
    simp [hne]
  · intro hc hr
    rw [handle_received_packet_route st buf len hb h5 2 0xF8 hc hr]
    norm_num
  · intro r hc hr hne8 hne1
    rw [handle_received_packet_route st buf len hb h5 2 r hc hr]
    simp [hne8, hne1]
  · intro hc hr h7
    rw [handle_received_packet_route st buf len hb h5 2 0xF1 hc hr]
    have h6 : (buf.take len)[6]? = buf[6]? := List.getElem?_take_of_lt (by omega)
    have h6b : buf[6]? = some buf[6] := List.getElem?_eq_getElem (by omega)
    rw [h6, h6b]
    norm_num
  · intro c r hc hr hc0 hc1 hc2 hc3
    rw [handle_received_packet_route st buf len hb h5 c r hc hr]
    simp [hc0, hc1, hc2, hc3]

/-- C4 witness: a 5-byte reset-complete frame on the executable channel
sets `device_reset` on the fresh driver state. -/
theorem dispatch_routes_witness :
    ([5, 0, 1, 0, 1] : List Nat)[2]? = some 1 ∧
    handle_received_packet BNO080.new_with_interface [5, 0, 1, 0, 1] 5 =
      some { BNO080.new_with_interface with device_reset := true } := by
  refine ⟨by norm_num, ?_⟩
  exact (dispatch_routes_by_channel_and_report BNO080.new_with_interface
    [5, 0, 1, 0, 1] 5 (by norm_num) (by norm_num)).1 (by norm_num) (by norm_num)

/-! ### C10 -/

/-- C10: `handle_received_packet` reads the receive buffer at offsets 2 and
4 before any routing, so a successful (panic-free) dispatch forces
`received_len ≥ 5`, and the hub-control command-response path (channel byte
2, report id `0xF1`) additionally reads offset 6, forcing
`received_len ≥ 7`.  `handle_one_message` guards only `received_len > 0`
before dispatching, so received lengths 1 through 4 reach the unchecked
reads and panic (`none`), while length 0 and receive errors are counted as
zero messages without dispatching. -/
theorem unchecked_header_reads :
    (∀ (st : BNO080) (buf : List Nat) (len : Nat) (st' : BNO080),
       handle_received_packet st buf len = some st' → 5 ≤ len) ∧
    (∀ (st : BNO080) (buf : List Nat) (len : Nat) (st' : BNO080),
       handle_received_packet st buf len = some st' →
       buf[2]? = some 2 → buf[4]? = some 0xF1 → 7 ≤ len) ∧
    (∀ (st : BNO080) (buf : List Nat) (len : Nat), 1 ≤ len → len ≤ 4 →
       handle_one_message (E := Unit) (Except.ok len) buf st = none) ∧
    (∀ (st : BNO080) (buf : List Nat),
       handle_one_message (E := Unit) (Except.ok 0) buf st = some (0, st)) ∧
    (∀ (st : BNO080) (buf : List Nat) (e : Unit),
       handle_one_message (E := Unit) (Except.error e) buf st = some (0, st)) := by
  refine ⟨?_, ?_, ?_, ?_, ?_⟩
  · intro st buf len st' h
    exact (handle_received_packet_some_len h).2
  · intro st buf len st' h hc hr
    obtain ⟨hb, h5⟩ := handle_received_packet_some_len h
    rw [handle_received_packet_route st buf len hb h5 2 0xF1 hc hr] at h
    norm_num at h
    rcases h6 : (buf.take len)[6]? with _ | cr
    · rw [h6] at h
      exact absurd h (by simp)
    · have h6lt : 6 < (buf.take len).length := by
        by_contra hh
        rw [List.getElem?_eq_none_iff.mpr (by omega)] at h6
        exact Option.noConfusion h6
      rw [List.length_take] at h6lt
      omega
  · intro st buf len h1 h4
    rw [handle_one_message]
    have hnone : handle_received_packet st buf len = none := by
      rcases hh : handle_received_packet st buf len with _ | st'
      · rfl
      · have := (handle_received_packet_some_len hh).2
        omega
    simp only [receive_packet]
    rw [if_pos (by omega), hnone]
  · intro st buf
    rw [handle_one_message]
    simp [receive_packet]
  · intro st buf e
    rw [handle_one_message]
    simp [receive_packet]

/-- C10 witness: a received length of 3 reaches the header reads and the
dispatch panics, even on a large buffer. -/
theorem unchecked_header_reads_witness :
    (1 : Nat) ≤ 3 ∧ (3 : Nat) ≤ 4 ∧
    handle_one_message (E := Unit) (Except.ok 3)
      (List.replicate 1024 0) BNO080.new_with_interface = none := by
  refine ⟨by norm_num, by norm_num, ?_⟩
  exact unchecked_header_reads.2.2.1 BNO080.new_with_interface
    (List.replicate 1024 0) 3 (by norm_num) (by norm_num)

/-! ### Flag preservation helpers -/

/-- Sending never touches the two flags. -/
theorem send_packet_flags {E : Type} {tr : Option E} {st : BNO080} {c : Nat}
    {body : List Nat} {st' : BNO080} {f : List Nat}
    {r : Except (WrapperError E) Nat}
    (h : send_packet tr st c body = some (st', f, r)) :
    st'.device_reset = st.device_reset ∧
      st'.prod_id_verified = st.prod_id_verified := by
  rw [send_packet] at h
  by_cases h1 : c < st.sequence_numbers.length
  · rw [if_pos h1] at h
    by_cases h2 : body.length + PACKET_HEADER_LENGTH ≤ PACKET_SEND_BUF_LEN
    · rw [if_pos h2] at h
      rcases tr with _ | e <;> simp only [] at h <;>
        (obtain ⟨hst, -, -⟩ := Prod.mk.injEq .. ▸ Option.some.inj h;
         exact hst ▸ ⟨rfl, rfl⟩)
    · rw [if_neg h2] at h
      exact absurd h (by simp)
  · rw [if_neg h1] at h
    exact absurd h (by simp)

/-- Resetting never touches the two flags. -/
theorem soft_reset_flags {E : Type} {tr : Option E} {st st' : BNO080}
    {f : List Nat} {r : Except (WrapperError E) Unit}
    (h : soft_reset tr st = some (st', f, r)) :
    st'.device_reset = st.device_reset ∧
      st'.prod_id_verified = st.prod_id_verified := by
  rw [soft_reset] at h
  rcases hsp : send_packet tr st CHANNEL_EXECUTABLE [EXECUTABLE_DEVICE_CMD_RESET]
      with _ | ⟨st1, fr, res⟩
  · rw [hsp] at h
    exact absurd h (by simp)
  · rw [hsp] at h
    have hf := send_packet_flags hsp
    rcases res with e | a <;> simp only [] at h <;>
      (obtain ⟨hst, -, -⟩ := Prod.mk.injEq .. ▸ Option.some.inj h;
       exact hst ▸ hf)

/-- Verification preserves a true flag (it only ever sets
`prod_id_verified` to true). -/
theorem verify_product_id_flags {E : Type} {trS : Option E}
    {recvRes : Except E Nat} {recvBuf : List Nat} {st st' : BNO080}
    {f : List Nat} {r : Except (WrapperError E) Unit}
    (h : verify_product_id trS recvRes recvBuf st = some (st', f, r)) :
    st'.device_reset = st.device_reset ∧
      (st.prod_id_verified = true → st'.prod_id_verified = true) := by
  rw [verify_product_id] at h
  rcases hsp : send_packet trS st CHANNEL_HUB_CONTROL [SENSORHUB_PROD_ID_REQ, 0]
      with _ | ⟨st1, fr, res⟩
  · rw [hsp] at h
    exact absurd h (by simp)
  · rw [hsp] at h
    have hf := send_packet_flags hsp
    rcases res with e | a
    · simp only [] at h
      obtain ⟨hst, -, -⟩ := Prod.mk.injEq .. ▸ Option.some.inj h
      exact hst ▸ ⟨hf.1, fun hp => hf.2 ▸ hp⟩
    · simp only [] at h
      rcases recvRes with e | n
      · simp only [receive_packet] at h
        obtain ⟨hst, -, -⟩ := Prod.mk.injEq .. ▸ Option.some.inj h
        exact hst ▸ ⟨hf.1, fun hp => hf.2 ▸ hp⟩
      · simp only [receive_packet] at h
        split_ifs at h <;>
          (obtain ⟨hst, -, -⟩ := Prod.mk.injEq .. ▸ Option.some.inj h;
           subst hst) <;>
          first
            | exact ⟨hf.1, fun _ => rfl⟩
            | exact ⟨hf.1, fun hp => hf.2 ▸ hp⟩

/-! ### C7 -/

/-- C7: the two flags are monotonic.  Every dispatch of a received frame
either preserves a flag or sets it to true; `soft_reset` leaves both flags
untouched (a fresh reset does not clear them); `verify_product_id` and
`init` only ever raise `prod_id_verified`; and delivering the same
reset-complete frame twice leaves `device_reset = true` after either
delivery. -/
theorem flags_monotonic :
    (∀ (st : BNO080) (buf : List Nat) (len : Nat) (st' : BNO080),
       handle_received_packet st buf len = some st' →
       (st.device_reset = true → st'.device_reset = true) ∧
       (st.prod_id_verified = true → st'.prod_id_verified = true)) ∧
    (∀ (tr : Option Unit) (st st' : BNO080) (f : List Nat)
       (r : Except (WrapperError Unit) Unit),
       soft_reset tr st = some (st', f, r) →
       st'.device_reset = st.device_reset ∧
       st'.prod_id_verified = st.prod_id_verified) ∧
    (∀ (trS : Option Unit) (recvRes : Except Unit Nat) (recvBuf : List Nat)
       (st st' : BNO080) (f : List Nat) (r : Except (WrapperError Unit) Unit),
       verify_product_id trS recvRes recvBuf st = some (st', f, r) →
       (st.device_reset = true → st'.device_reset = true) ∧
       (st.prod_id_verified = true → st'.prod_id_verified = true)) ∧
    (∀ (t1 t2 t3 : Option Unit) (recvV : Except Unit Nat)
       (recvBuf : List Nat) (st st' : BNO080)
       (r : Except (WrapperError Unit) Unit),
       init t1 t2 t3 recvV recvBuf st = some (st', r) →
       (st.device_reset = true → st'.device_reset = true) ∧
       (st.prod_id_verified = true → st'.prod_id_verified = true)) ∧
    (∀ (st : BNO080) (buf : List Nat) (len : Nat) (st1 st2 : BNO080),
       5 ≤ len → len ≤ buf.length →
       buf[2]? = some 1 → buf[4]? = some 1 →
       handle_received_packet st buf len = some st1 →
       handle_received_packet st1 buf len = some st2 →
       st1.device_reset = true ∧ st2.device_reset = true) := by
  refine ⟨?_, ?_, ?_, ?_, ?_⟩
  · intro st buf len st' h
    rcases handle_received_packet_shape h with hs | hs | hs <;> subst hs
    · exact ⟨fun hp => hp, fun hp => hp⟩
    · exact ⟨fun _ => rfl, fun hp => hp⟩
    · exact ⟨fun hp => hp, fun _ => rfl⟩
  · intro tr st st' f r h
    exact soft_reset_flags h
  · intro trS recvRes recvBuf st st' f r h
    obtain ⟨hd, hp⟩ := verify_product_id_flags h
    exact ⟨fun hh => hd ▸ hh, hp⟩
  · intro t1 t2 t3 recvV recvBuf st st' r h
    rw [init.eq_def] at h
    rcases t1 with _ | e
    · simp only [] at h
      rcases hsr : soft_reset t2 st with _ | ⟨st1, fr, res⟩
      · rw [hsr] at h
        exact absurd h (by simp)
      · rw [hsr] at h
        obtain ⟨hd1, hp1⟩ := soft_reset_flags hsr
        rcases res with e | a
        · simp only [] at h
          obtain ⟨hst, -⟩ := Prod.mk.injEq .. ▸ Option.some.inj h
          exact hst ▸ ⟨fun hh => hd1 ▸ hh, fun hh => hp1 ▸ hh⟩
        · simp only [] at h
          rcases hv : verify_product_id t3 recvV recvBuf st1 with _ | ⟨st2, f2, r2⟩
          · rw [hv] at h
            exact absurd h (by simp)
          · rw [hv] at h
            obtain ⟨hd2, hp2⟩ := verify_product_id_flags hv
            obtain ⟨hst, -⟩ := Prod.mk.injEq .. ▸ Option.some.inj h
            subst hst
            constructor
            · intro hh
              rw [hd2, hd1]
              exact hh
            · intro hh
              exact hp2 (hp1 ▸ hh)
    · simp only [] at h
      obtain ⟨hst, -⟩ := Prod.mk.injEq .. ▸ Option.some.inj h
      exact hst ▸ ⟨fun hh => hh, fun hh => hh⟩
  · intro st buf len st1 st2 h5 hb hc hr h1 h2
    rw [handle_reset_complete_eq st buf len h5 hb hc hr] at h1
    have hst1 : st1 = { st with device_reset := true } := (Option.some.inj h1).symm
    subst hst1
    rw [handle_reset_complete_eq _ buf len h5 hb hc hr] at h2
    have hst2 := (Option.some.inj h2).symm
    subst hst2
    exact ⟨rfl, rfl⟩

/-- C7 witness: the 5-byte reset-complete frame delivered twice to the fresh
driver state. -/
theorem flags_monotonic_witness :
    handle_received_packet BNO080.new_with_interface [5, 0, 1, 0, 1] 5 =
      some { BNO080.new_with_interface with device_reset := true } ∧
    ({ BNO080.new_with_interface with device_reset := true } : BNO080).device_reset = true := by
  have h1 : handle_received_packet BNO080.new_with_interface [5, 0, 1, 0, 1] 5 =
      some { BNO080.new_with_interface with device_reset := true } :=
    handle_reset_complete_eq BNO080.new_with_interface [5, 0, 1, 0, 1] 5
      (by norm_num) (by norm_num) (by norm_num) (by norm_num)
  have h2 : handle_received_packet
      { BNO080.new_with_interface with device_reset := true } [5, 0, 1, 0, 1] 5 =
      some { BNO080.new_with_interface with device_reset := true } :=
    handle_reset_complete_eq
      { BNO080.new_with_interface with device_reset := true } [5, 0, 1, 0, 1] 5
      (by norm_num) (by norm_num) (by norm_num) (by norm_num)
  exact ⟨h1, (flags_monotonic.2.2.2.2 BNO080.new_with_interface [5, 0, 1, 0, 1]
    5 _ _ (by norm_num) (by norm_num) (by norm_num) (by norm_num) h1 h2).2⟩

/-! ### C3 -/

/-- C3: product-id verification sends the frame
`[6, 0, 2, seq, 0xF9, 0x00]` — the 2-byte request `[0xF9, 0x00]` on the
hub-control channel (2) — then receives one frame; exactly when the
received length exceeds 4 and the byte just after the header is `0xF8` it
sets `prod_id_verified` and returns success, and in every other case it
returns `InvalidChipId`. -/
theorem verify_product_id_spec (st : BNO080) (len : Nat) (buf : List Nat)
    (h6 : st.sequence_numbers.length = 6) :
    (4 < len → buf.getD 4 0 = 0xF8 →
      verify_product_id (E := Unit) none (Except.ok len) buf st =
        some ({ st with
                  sequence_numbers := st.sequence_numbers.set 2
                    ((st.sequence_numbers.getD 2 0 + 1) % 256),
                  prod_id_verified := true },
              [6, 0, 2, (st.sequence_numbers.getD 2 0 + 1) % 256, 0xF9, 0],
              Except.ok ())) ∧
    (¬ (4 < len ∧ buf.getD 4 0 = 0xF8) →
      verify_product_id (E := Unit) none (Except.ok len) buf st =
        some ({ st with
                  sequence_numbers := st.sequence_numbers.set 2
                    ((st.sequence_numbers.getD 2 0 + 1) % 256) },
              [6, 0, 2, (st.sequence_numbers.getD 2 0 + 1) % 256, 0xF9, 0],
              Except.error (WrapperError.InvalidChipId 0))) := by
  have hsend := send_packet_eq (E := Unit) none st CHANNEL_HUB_CONTROL
    [SENSORHUB_PROD_ID_REQ, 0] h6 (by norm_num [CHANNEL_HUB_CONTROL])
    (by norm_num)
  constructor
  · intro hlen hbyte
    rw [verify_product_id, hsend]
    simp only [receive_packet]
    rw [if_pos (show PACKET_HEADER_LENGTH < len from hlen)]
    rw [if_pos (show buf.getD (PACKET_HEADER_LENGTH + 0) 0 =
      SENSORHUB_PROD_ID_RESP from hbyte)]
    norm_num [CHANNEL_HUB_CONTROL, SENSORHUB_PROD_ID_REQ]
  · intro hno
    rw [verify_product_id, hsend]
    simp only [receive_packet]
    by_cases hlen : PACKET_HEADER_LENGTH < len
    · have hbyte : ¬ (buf.getD (PACKET_HEADER_LENGTH + 0) 0 =
        SENSORHUB_PROD_ID_RESP) := fun hb => hno ⟨hlen, hb⟩
      rw [if_pos hlen, if_neg hbyte]
      norm_num [CHANNEL_HUB_CONTROL, SENSORHUB_PROD_ID_REQ]
    · rw [if_neg hlen]
      norm_num [CHANNEL_HUB_CONTROL, SENSORHUB_PROD_ID_REQ]

/-- C3 witness: a 6-byte response whose first body byte is `0xF8` verifies
the product id; a response whose first body byte is `0xAB` fails with
`InvalidChipId 0`. -/
theorem verify_product_id_spec_witness :
    verify_product_id (E := Unit) none (Except.ok 6)
      [6, 0, 2, 1, 0xF8, 0] BNO080.new_with_interface =
      some ({ BNO080.new_with_interface with
                sequence_numbers := (List.replicate 6 0).set 2 1,
                prod_id_verified := true },
            [6, 0, 2, 1, 0xF9, 0], Except.ok ()) ∧
    verify_product_id (E := Unit) none (Except.ok 6)
      [6, 0, 2, 1, 0xAB, 0] BNO080.new_with_interface =
      some ({ BNO080.new_with_interface with
                sequence_numbers := (List.replicate 6 0).set 2 1 },
            [6, 0, 2, 1, 0xF9, 0],
            Except.error (WrapperError.InvalidChipId 0)) := by
  constructor
  · have h := (verify_product_id_spec BNO080.new_with_interface 6
      [6, 0, 2, 1, 0xF8, 0] (by norm_num [BNO080.new_with_interface,
        NUM_CHANNELS])).1 (by norm_num) (by norm_num)
    simpa using h
  · have h := (verify_product_id_spec BNO080.new_with_interface 6
      [6, 0, 2, 1, 0xAB, 0] (by norm_num [BNO080.new_with_interface,
        NUM_CHANNELS])).2 (by norm_num)
    simpa using h

/-! ### C5 -/

/-- The stamped sequence bytes of `n` consecutive sends on one channel are
`s+1, s+2, …` modulo 256, and the other channels' counters never move. -/
theorem send_stream_spec (c : Nat) (body : List Nat) (hc : c < 6)
    (hcap : body.length + 4 ≤ 256) :
    ∀ (n : Nat) (st : BNO080), st.sequence_numbers.length = 6 →
      ∃ stF, send_stream st c body n =
        some (stF, (List.range n).map
          (fun k => (st.sequence_numbers.getD c 0 + k + 1) % 256)) ∧
        stF.sequence_numbers.length = 6 ∧
        (∀ j, j ≠ c →
          stF.sequence_numbers.getD j 0 = st.sequence_numbers.getD j 0) := by
  intro n
  induction n with
  | zero =>
    intro st h6
    exact ⟨st, by simp [send_stream], h6, fun j _ => rfl⟩
  | succ n ih =>
    intro st h6
    have hsend := send_packet_eq (E := Unit) none st c body h6 hc hcap
    have h61 : ({ st with sequence_numbers :=
        st.sequence_numbers.set c ((st.sequence_numbers.getD c 0 + 1) % 256) } :
        BNO080).sequence_numbers.length = 6 := by
      simpa using h6
    obtain ⟨stF, hstream, h6F, hother⟩ := ih _ h61
    refine ⟨stF, ?_, h6F, ?_⟩
    · have hset : (st.sequence_numbers.set c
          ((st.sequence_numbers.getD c 0 + 1) % 256)).getD c 0 =
          (st.sequence_numbers.getD c 0 + 1) % 256 :=
        getD_set_self (by rw [h6]; exact hc)
      simp only [hset] at hstream
      rw [send_stream, hsend]
      simp only []
      rw [hstream]
      simp only []
      have hhead : (([(body.length + 4) % 256, (body.length + 4) / 256 % 256,
          c, (st.sequence_numbers.getD c 0 + 1) % 256] ++ body) :
          List Nat).getD 3 0 = (st.sequence_numbers.getD c 0 + 1) % 256 := rfl
      rw [hhead]
      rw [List.range_succ_eq_map, List.map_cons, List.map_map]
      have hfun : (fun k =>
            ((st.sequence_numbers.getD c 0 + 1) % 256 + k + 1) % 256) =
          ((fun k => (st.sequence_numbers.getD c 0 + k + 1) % 256) ∘
            Nat.succ) := by
        funext k
        simp only [Function.comp_apply, Nat.succ_eq_add_one]
        omega
      rw [hfun]
    · intro j hj
      rw [hother j hj]
      exact getD_set_of_ne (Ne.symm hj)

/-- C5: one send on a valid channel with a body that fits increments only
that channel's 8-bit counter, writes the frame
`[length_lo, length_hi, channel, new_sequence] ++ body` with
`length = body.len() + 4`, and returns the total frame length; `n`
consecutive sends on the channel stamp the sequence values
`s+1, s+2, …` modulo 256. -/
theorem send_packet_sequence_discipline (st : BNO080) (c : Nat)
    (body : List Nat) (h6 : st.sequence_numbers.length = 6) (hc : c < 6)
    (hcap : body.length + 4 ≤ 256) :
    (send_packet (E := Unit) none st c body = some
      ({ st with sequence_numbers :=
          st.sequence_numbers.set c ((st.sequence_numbers.getD c 0 + 1) % 256) },
       [(body.length + 4) % 256, (body.length + 4) / 256 % 256, c,
        (st.sequence_numbers.getD c 0 + 1) % 256] ++ body,
       Except.ok (body.length + 4))) ∧
    (∀ j, j ≠ c →
      (st.sequence_numbers.set c
        ((st.sequence_numbers.getD c 0 + 1) % 256)).getD j 0 =
        st.sequence_numbers.getD j 0) ∧
    (∀ n, ∃ stF, send_stream st c body n =
      some (stF, (List.range n).map
        (fun k => (st.sequence_numbers.getD c 0 + k + 1) % 256)) ∧
      (∀ j, j ≠ c →
        stF.sequence_numbers.getD j 0 = st.sequence_numbers.getD j 0)) := by
  refine ⟨send_packet_eq (E := Unit) none st c body h6 hc hcap,
    fun j hj => getD_set_of_ne (Ne.symm hj), fun n => ?_⟩
  obtain ⟨stF, hstream, -, hother⟩ := send_stream_spec c body hc hcap n st h6
  exact ⟨stF, hstream, hother⟩

/-- C5 witness: three consecutive sends of the 1-byte reset body on the
executable channel stamp sequence bytes 1, 2, 3 and leave the other
channels at 0. -/
theorem send_packet_sequence_discipline_witness :
    send_packet (E := Unit) none BNO080.new_with_interface 1 [1] = some
      ({ BNO080.new_with_interface with
          sequence_numbers := (List.replicate 6 0).set 1 1 },
       [5, 0, 1, 1, 1], Except.ok 5) ∧
    (∃ stF, send_stream BNO080.new_with_interface 1 [1] 3 =
      some (stF, [1, 2, 3]) ∧
      (∀ j, j ≠ 1 →
        stF.sequence_numbers.getD j 0 =
          BNO080.new_with_interface.sequence_numbers.getD j 0)) := by
  have h := send_packet_sequence_discipline BNO080.new_with_interface 1 [1]
    (by norm_num [BNO080.new_with_interface, NUM_CHANNELS]) (by norm_num)
    (by norm_num)
  constructor
  · have h1 := h.1
    simpa using h1
  · obtain ⟨stF, hstream, hother⟩ := h.2.2 3
    refine ⟨stF, ?_, hother⟩
    rw [hstream]
    norm_num [BNO080.new_with_interface, List.range_succ]

/-! ### C6 -/

/-- C6: the per-channel counter is 8-bit and wraps silently: a send on a
channel whose counter holds 255 succeeds (no panic, no error), stamps
sequence byte 0 into the frame, and stores 0 in the counter. -/
theorem sequence_counter_wraps (st : BNO080) (c : Nat) (body : List Nat)
    (h6 : st.sequence_numbers.length = 6) (hc : c < 6)
    (hs : st.sequence_numbers.getD c 0 = 255) (hcap : body.length + 4 ≤ 256) :
    send_packet (E := Unit) none st c body = some
      ({ st with sequence_numbers := st.sequence_numbers.set c 0 },
       [(body.length + 4) % 256, (body.length + 4) / 256 % 256, c, 0] ++ body,
       Except.ok (body.length + 4)) := by
  have h := send_packet_eq (E := Unit) none st c body h6 hc hcap
  rw [hs] at h
  norm_num at h
  exact h

/-- C6 witness: all counters at 255, a send on channel 2 stamps sequence
byte 0 and stores 0. -/
theorem sequence_counter_wraps_witness :
    send_packet (E := Unit) none
      ⟨List.replicate 6 255, false, false⟩ 2 [0xF9, 0] = some
      (⟨(List.replicate 6 255).set 2 0, false, false⟩,
       [6, 0, 2, 0, 0xF9, 0], Except.ok 6) := by
  have h := sequence_counter_wraps ⟨List.replicate 6 255, false, false⟩ 2
    [0xF9, 0] (by norm_num) (by norm_num) (by norm_num) (by norm_num)
  simpa using h

/-! ### C8 -/

/-- C8: for any report id and any 16-bit interval in milliseconds, the
set-feature body is exactly 17 bytes: `0xFD`, the report id, three zero
bytes (feature flags and change sensitivity), the four little-endian bytes
of the interval converted to microseconds (`* 1000`), and eight zero bytes
(batch interval and sensor-specific configuration); `enable_report` sends
exactly this body on the hub-control channel. -/
theorem enable_report_encoding (r m : Nat) (hm : m < 65536) :
    enable_report_body r m =
      [0xFD, r, 0, 0, 0,
       m * 1000 % 256, m * 1000 / 256 % 256,
       m * 1000 / 65536 % 256, m * 1000 / 16777216 % 256,
       0, 0, 0, 0, 0, 0, 0, 0] ∧
    (enable_report_body r m).length = 17 ∧
    (∀ (E : Type) (tr : Option E) (st : BNO080),
      enable_report tr st r m =
        send_packet tr st CHANNEL_HUB_CONTROL (enable_report_body r m)) := by
  have hmod : m * 1000 % 4294967296 = m * 1000 :=
    Nat.mod_eq_of_lt (by omega)
  constructor
  · rw [enable_report_body]
    simp only [hmod, SHTP_REPORT_SET_FEATURE_COMMAND]
  constructor
  · rfl
  · intro E tr st
    rfl

/-- C8 witness: `enable(0x05, 100)` builds the 17-byte body with `0xFD`,
report id `0x05`, and bytes 5–8 equal to the little-endian encoding of
100000 microseconds (`[0xA0, 0x86, 0x01, 0x00]`). -/
theorem enable_report_encoding_witness :
    (100 : Nat) < 65536 ∧
    enable_report_body 5 100 =
      [0xFD, 5, 0, 0, 0, 0xA0, 0x86, 0x01, 0x00,
       0, 0, 0, 0, 0, 0, 0, 0] := by
  refine ⟨by norm_num, ?_⟩
  rw [(enable_report_encoding 5 100 (by norm_num)).1]

/-! ### C9 -/

/-- C9: `eat_one_message` returns the received length on a successful
receive and 0 on any receive error (the error is swallowed);
`eat_all_messages` stops exactly at the first receive that
`eat_one_message` maps to 0, having performed one `delay_ms(1)` per
non-zero receive before it, so draining is total and never fails. -/
theorem eat_messages_swallow_errors :
    (∀ (n : Nat), eat_one_message (E := Unit) (Except.ok n) = n) ∧
    (∀ (e : Unit), eat_one_message (E := Unit) (Except.error e) = 0) ∧
    (∀ (pre : List (Except Unit Nat)) (r : Except Unit Nat)
       (rest : List (Except Unit Nat)),
       (∀ x ∈ pre, eat_one_message x ≠ 0) → eat_one_message r = 0 →
       eat_all_messages (pre ++ r :: rest) = pre.length) := by
  refine ⟨fun n => rfl, fun e => rfl, ?_⟩
  intro pre
  induction pre with
  | nil =>
    intro r rest _ hr
    simp [eat_all_messages, hr]
  | cons a pre ih =>
    intro r rest hpre hr
    have ha : eat_one_message a ≠ 0 := hpre a (by simp)
    have htail := ih r rest (fun x hx => hpre x (by simp [hx])) hr
    rw [List.cons_append, eat_all_messages, if_neg ha, htail,
      List.length_cons]
    omega

/-- C9 witness: two non-empty receives, then an error (swallowed as length
0) that stops the drain after exactly two delays, ignoring what follows. -/
theorem eat_messages_swallow_errors_witness :
    eat_one_message (E := Unit) (Except.error ()) = 0 ∧
    eat_all_messages (E := Unit)
      [Except.ok 52, Except.ok 276, Except.error (), Except.ok 9] = 2 := by
  constructor
  · exact eat_messages_swallow_errors.2.1 ()
  · exact eat_messages_swallow_errors.2.2
      [Except.ok 52, Except.ok 276] (Except.error ()) [Except.ok 9]
      (by decide) (by decide)

end BNO080Spec
